import Mathlib

/-!
Verification of the two HTTP route handlers in `convex/http.ts` of the
fitness_flex repository: the Clerk webhook route (`/clerk-webhook`) and the
fitness plan generation route (`/vapi/generate-program`).

The handlers are shallowly embedded as pure Lean functions. JavaScript
runtime behaviour that the handlers rely on is made explicit:
  * JSON values are a small inductive type `Json`;
  * property access on `null`/`undefined` throws a `TypeError` (modelled by
    `Except.error`), on any other non-object value it yields `undefined`
    (modelled by `Option.none`);
  * truthiness of values (`if (x)`, `x || y`, `!x`) follows JS coercion;
  * external collaborators (the request body parser `JSON.parse`, the svix
    `Webhook.verify` call, the Convex mutations `api.users.syncUser`,
    `api.users.updateUser`, `api.plans.createPlan`, and the outbound
    `fetch`) are oracle parameters of the handler functions, with thrown
    exceptions modelled as `Except.error`.
-/

set_option autoImplicit false

namespace FitnessFlex

/-- JSON values, as produced by `JSON.parse` (numbers modelled as `Int`). -/
inductive Json where
  | null
  | bool (b : Bool)
  | num (n : Int)
  | str (s : String)
  | arr (elems : List Json)
  | obj (fields : List (String × Json))

/-- Field lookup in a parsed JSON object (keys are unique after parsing). -/
def lookupField (fields : List (String × Json)) (k : String) : Option Json :=
  (fields.find? (fun p => p.1 = k)).map Prod.snd

/-- Truthiness of a JS value; `none` models `undefined`. -/
def jsTruthy : Option Json → Bool
  | none => false
  | some Json.null => false
  | some (Json.bool b) => b
  | some (Json.num n) => n != 0
  | some (Json.str s) => s != ""
  | some (Json.arr _) => true
  | some (Json.obj _) => true

/-- Truthiness of a `string | undefined` JS value (env vars, header reads). -/
def jsStrTruthy : Option String → Bool
  | none => false
  | some s => s != ""

/-- Message of the `TypeError` raised when reading a property of
`null`/`undefined`. -/
def typeErrorRead (what k : String) : String :=
  "TypeError: Cannot read properties of " ++ what ++ " (reading " ++ k ++ ")"

/-- Property read on a value that is not `null`: objects look the key up,
every other value yields `undefined`. -/
def jsProp : Json → String → Option Json
  | Json.obj fields, k => lookupField fields k
  | _, _ => none

/-- Property read `v.k` on a JS value; throws a `TypeError` on `null`. -/
def jsGetProp (v : Json) (k : String) : Except String (Option Json) :=
  match v with
  | Json.null => Except.error (typeErrorRead "null" k)
  | v => Except.ok (jsProp v k)

/-- Property read `v.k` where `v` may also be `undefined` (the result of a
previous property read or index); throws a `TypeError` on both `undefined`
and `null`. -/
def jsGetPropVal (v : Option Json) (k : String) : Except String (Option Json) :=
  match v with
  | none => Except.error (typeErrorRead "undefined" k)
  | some j => jsGetProp j k

/-- Index read `v[0]` on a possibly-`undefined` JS value; throws a
`TypeError` on `undefined`/`null`, otherwise arrays yield their head,
objects look up the key `"0"`, strings yield their first character, and
remaining primitives yield `undefined`. -/
def jsIndexZero : Option Json → Except String (Option Json)
  | none => Except.error (typeErrorRead "undefined" "0")
  | some Json.null => Except.error (typeErrorRead "null" "0")
  | some (Json.arr elems) => Except.ok elems.head?
  | some (Json.obj fields) => Except.ok (lookupField fields "0")
  | some (Json.str s) => Except.ok ((s.toList.head?).map (fun c => Json.str c.toString))
  | some _ => Except.ok none

/-- Escaping performed by `JSON.stringify` on string contents. -/
def escapeJsonString (s : String) : String :=
  s.foldl (fun acc c =>
    acc ++ (if c = '"' then "\\\""
      else if c = '\\' then "\\\\"
      else if c = '\n' then "\\n"
      else if c = '\r' then "\\r"
      else if c = '\t' then "\\t"
      else c.toString)) ""

mutual

/-- Serialisation of a parsed JSON value back to text, modelling
`JSON.stringify` on `JSON.parse` output. -/
def Json.stringify : Json → String
  | Json.null => "null"
  | Json.bool b => cond b "true" "false"
  | Json.num n => toString n
  | Json.str s => "\"" ++ escapeJsonString s ++ "\""
  | Json.arr elems => "[" ++ stringifyElems elems ++ "]"
  | Json.obj fields => "\x7b" ++ stringifyFields fields ++ "\x7d"

/-- Comma-separated serialisation of array elements. -/
def stringifyElems : List Json → String
  | [] => ""
  | [x] => Json.stringify x
  | x :: xs => Json.stringify x ++ "," ++ stringifyElems xs

/-- Comma-separated serialisation of object fields. -/
def stringifyFields : List (String × Json) → String
  | [] => ""
  | [(k, v)] => "\"" ++ escapeJsonString k ++ "\":" ++ Json.stringify v
  | (k, v) :: fs => "\"" ++ escapeJsonString k ++ "\":" ++ Json.stringify v ++ "," ++ stringifyFields fs

end

mutual

/-- Conversion of a JS value to a string as a template literal does
(`String(v)`): strings are kept, `null` prints `"null"`, objects print
`"[object Object]"`, arrays join their elements with commas. -/
def jsTemplateString : Json → String
  | Json.null => "null"
  | Json.bool b => cond b "true" "false"
  | Json.num n => toString n
  | Json.str s => s
  | Json.arr elems => jsArrayString elems
  | Json.obj _ => "[object Object]"

/-- `Array.prototype.toString`: elements joined by commas, where a `null`
element contributes the empty string. -/
def jsArrayString : List Json → String
  | [] => ""
  | [Json.null] => ""
  | [x] => jsTemplateString x
  | Json.null :: xs => "," ++ jsArrayString xs
  | x :: xs => jsTemplateString x ++ "," ++ jsArrayString xs

end

/-- Value of `v || ""` interpolated into a template literal: the string of
`v` when `v` is truthy, the empty string otherwise. -/
def jsOrEmpty (v : Option Json) : String :=
  if jsTruthy v then jsTemplateString (v.getD Json.null) else ""

/-! ## The `/vapi/generate-program` route -/

/-- Outcome of the outbound `fetch` to the Python backend: HTTP status and
the response text read by `response.text()`. -/
structure FetchResponse where
  status : Nat
  text : String

/-- `Response.ok` of the Fetch API: status in the range 200..299. -/
def FetchResponse.isOk (r : FetchResponse) : Bool :=
  200 ≤ r.status && r.status < 300

/-- The object the handler passes to `api.plans.createPlan` (`planToSave`
in the source). `Option Json` fields model possibly-`undefined` values. -/
structure PlanRecord where
  userId : Option Json
  dietPlan : Option Json
  isActive : Bool
  workoutPlan : Option Json
  name : Json

/-- Observable outcome of the `/vapi/generate-program` handler: HTTP status
and JSON body of the response, plus the list of plan records that were
persisted (a `createPlan` mutation that throws persists nothing). -/
structure PlanOutcome where
  status : Nat
  body : Json
  saved : List PlanRecord

/-- Evaluation of the guard
`result.success && result.data && result.data.success` (source line 130);
throws when `result` is `null`. -/
def evalSuccessCond (result : Json) : Except String Bool := do
  let s ← jsGetProp result "success"
  if jsTruthy s then
    let d ← jsGetProp result "data"
    if jsTruthy d then
      let ds ← jsGetPropVal d "success"
      pure (jsTruthy ds)
    else
      pure false
  else
    pure false

/-- Update `result` with `planId`, modelling the object literal
`\x7b...result, planId\x7d`: an existing `planId` key is overwritten in
place, otherwise the key is appended. -/
def setField (fields : List (String × Json)) (k : String) (v : Json) : List (String × Json) :=
  if fields.any (fun p => p.1 = k) then
    fields.map (fun p => if p.1 = k then (k, v) else p)
  else
    fields ++ [(k, v)]

/-- Spread `\x7b...result, planId\x7d` as a JSON value; the guard of the
branch that builds it guarantees `result` is an object, so the non-object
cases (where a JS spread would drop the value) only keep the new key. -/
def jsonSpreadSet (result : Json) (k : String) (v : Json) : Json :=
  match result with
  | Json.obj fields => Json.obj (setField fields k v)
  | _ => Json.obj [(k, v)]

/-- Body of the `try` block of the `/vapi/generate-program` handler
(source lines 94-157). Oracles: `payloadResult` is the outcome of
`request.json()`, `fetchResult` the outcome of `fetch` (network failures
are `Except.error`), `parseBackendJson` the behaviour of `JSON.parse` on the
backend's text, and `createPlan` the `api.plans.createPlan` mutation
returning the new record id. The returned triple is response status,
response body, and the list of persisted plan records. -/
def generateProgramTry (payloadResult : Except String Json)
    (fetchResult : Except String FetchResponse)
    (parseBackendJson : String → Except String Json)
    (createPlan : PlanRecord → Except String String) :
    Except String (Nat × Json × List PlanRecord) := do
  let payload ← payloadResult
  let response ← fetchResult
  let responseText := response.text
  if !response.isOk then
    throw ("Python API error: " ++ toString response.status ++ " - " ++ responseText)
  let result ← match parseBackendJson responseText with
    | Except.ok r => pure r
    | Except.error parseErr =>
        throw ("Failed to parse Python backend JSON: " ++ parseErr ++ " | Raw: " ++ responseText)
  let cond ← evalSuccessCond result
  if cond then
    let userId ← jsGetProp payload "user_id"
    let d ← jsGetProp result "data"
    let dietPlan ← jsGetPropVal d "diet_plan"
    let workoutPlan ← jsGetPropVal d "workout_plan"
    let nameField ← jsGetProp payload "name"
    let planToSave : PlanRecord :=
      { userId := userId
        dietPlan := dietPlan
        isActive := true
        workoutPlan := workoutPlan
        name := if jsTruthy nameField then nameField.getD Json.null else Json.str "Fitness Plan" }
    let planId ← createPlan planToSave
    pure (200, jsonSpreadSet result "planId" (Json.str planId), [planToSave])
  else
    pure (500, result, [])

/-- The `/vapi/generate-program` handler (source lines 92-171): the `try`
block above together with the `catch` that converts any thrown error into
an HTTP 500 response with body `\x7bsuccess: false, error: message\x7d`. -/
def generateProgram (payloadResult : Except String Json)
    (fetchResult : Except String FetchResponse)
    (parseBackendJson : String → Except String Json)
    (createPlan : PlanRecord → Except String String) : PlanOutcome :=
  match generateProgramTry payloadResult fetchResult parseBackendJson createPlan with
  | Except.ok (st, body, saved) => ⟨st, body, saved⟩
  | Except.error e =>
      ⟨500, Json.obj [("success", Json.bool false), ("error", Json.str e)], []⟩

/-! ## The `/clerk-webhook` route -/

/-- Arguments the handler passes to `api.users.syncUser` /
`api.users.updateUser`. `clerkId`, `email` and `image` are raw JS values
read off the event payload (possibly `undefined`); `name` is built by a
template literal and is always a string. -/
structure UserArgs where
  email : Option Json
  name : String
  image : Option Json
  clerkId : Option Json

/-- User-sync mutations invoked by the webhook handler. -/
inductive SyncCall where
  | create (args : UserArgs)
  | update (args : UserArgs)

/-- Headers handed to `wh.verify`. -/
structure SvixHeaders where
  svixId : String
  svixTimestamp : String
  svixSignature : String

/-- Event returned by a successful `wh.verify`: the Clerk event type tag
and its `data` payload. -/
structure WebhookEvent where
  type : String
  data : Json

/-- Inbound webhook request: the three svix headers as read by
`request.headers.get` (absent headers are `none`) and the raw body text. -/
structure ClerkRequest where
  svixId : Option String
  svixSignature : Option String
  svixTimestamp : Option String
  rawBody : String

/-- Headers object the handler builds for `wh.verify`. -/
def svixHeadersOf (req : ClerkRequest) : SvixHeaders :=
  ⟨req.svixId.getD "", req.svixTimestamp.getD "", req.svixSignature.getD ""⟩

/-- Observable outcome of the `/clerk-webhook` handler: either a returned
response (status and text body) or an exception that escapes the handler,
together with the list of sync mutations that were invoked. -/
structure WebhookOutcome where
  result : Except String (Nat × String)
  calls : List SyncCall

/-- `String.prototype.trim`: leading and trailing whitespace removed. -/
def jsTrim (s : String) : String :=
  String.mk (((s.toList.dropWhile Char.isWhitespace).reverse.dropWhile
    Char.isWhitespace).reverse)

/-- Name derivation shared by both event branches (source lines 50 and 69):
the template literal `first_name || "" last_name || ""` (with a space in
between), trimmed. -/
def deriveName (firstName lastName : Option Json) : String :=
  jsTrim (jsOrEmpty firstName ++ " " ++ jsOrEmpty lastName)

/-- Field extraction performed by both event branches (source lines 46-50
and 65-69; the two branches destructure the same five properties of
`evt.data`, in different orders, and derive `email` and `name` the same
way). Throws where the unguarded JS property reads throw: when `evt.data`
is `null`, and when `email_addresses[0]` is `undefined` or `null` (in
particular on an empty `email_addresses` array). -/
def extractUserArgs (d : Json) : Except String UserArgs := do
  let id ← jsGetProp d "id"
  let firstName ← jsGetProp d "first_name"
  let lastName ← jsGetProp d "last_name"
  let imageUrl ← jsGetProp d "image_url"
  let emailAddresses ← jsGetProp d "email_addresses"
  let firstAddress ← jsIndexZero emailAddresses
  let email ← jsGetPropVal firstAddress "email_address"
  pure { email := email, name := deriveName firstName lastName,
         image := imageUrl, clerkId := id }

/-- Dispatch on the verified event's type (source lines 44-84): the two
`if` branches are mutually exclusive, so they are written as an
`if`/`else if` chain. Each branch extracts the user fields, invokes its
mutation, answers 500 on mutation failure, and otherwise falls through to
the final 200 response; any other event type only returns the 200
response. -/
def dispatchEvent (evt : WebhookEvent)
    (syncUser updateUser : UserArgs → Except String Unit) : WebhookOutcome :=
  if evt.type = "user.created" then
    match extractUserArgs evt.data with
    | Except.error e => ⟨Except.error e, []⟩
    | Except.ok args =>
        match syncUser args with
        | Except.error _ => ⟨Except.ok (500, "Error creating user"), [SyncCall.create args]⟩
        | Except.ok _ => ⟨Except.ok (200, "Webhooks processed successfully"), [SyncCall.create args]⟩
  else if evt.type = "user.updated" then
    match extractUserArgs evt.data with
    | Except.error e => ⟨Except.error e, []⟩
    | Except.ok args =>
        match updateUser args with
        | Except.error _ => ⟨Except.ok (500, "Error updating user"), [SyncCall.update args]⟩
        | Except.ok _ => ⟨Except.ok (200, "Webhooks processed successfully"), [SyncCall.update args]⟩
  else
    ⟨Except.ok (200, "Webhooks processed successfully"), []⟩

/-- The `/clerk-webhook` handler (source lines 13-85). Oracles:
`parseRequestJson` is the behaviour of `request.json()` on the raw body
(its exception is uncaught and escapes the handler), `verifyWebhook` the
svix `Webhook.verify` call on the re-serialised body and the headers, and
`syncUser`/`updateUser` the two Convex mutations. `webhookSecret` is
`process.env.CLERK_WEBHOOK_SECRET`. -/
def clerkWebhook (webhookSecret : Option String) (req : ClerkRequest)
    (parseRequestJson : String → Except String Json)
    (verifyWebhook : String → SvixHeaders → Except String WebhookEvent)
    (syncUser updateUser : UserArgs → Except String Unit) : WebhookOutcome :=
  if !jsStrTruthy webhookSecret then
    ⟨Except.error "Missing CLERK_WEBHOOK_SECRET environment variable", []⟩
  else if !jsStrTruthy req.svixId || !jsStrTruthy req.svixSignature
      || !jsStrTruthy req.svixTimestamp then
    ⟨Except.ok (400, "No svix headers found"), []⟩
  else
    match parseRequestJson req.rawBody with
    | Except.error e => ⟨Except.error e, []⟩
    | Except.ok payload =>
        match verifyWebhook (Json.stringify payload) (svixHeadersOf req) with
        | Except.error _ => ⟨Except.ok (400, "Error occurred"), []⟩
        | Except.ok evt => dispatchEvent evt syncUser updateUser

/-! ## Definitions used to state the claims -/

/-- The plan record the handler persists when the double-success guard
holds, for a request object with fields `pf` and an upstream `data` object
with fields `df`: `userId` from the request's `user_id`, diet/workout plans
from the `data` object, `isActive` true, and the name defaulting to
`"Fitness Plan"` when the request's `name` is absent or falsy. -/
def planToSaveOf (pf df : List (String × Json)) : PlanRecord where
  userId := lookupField pf "user_id"
  dietPlan := lookupField df "diet_plan"
  isActive := true
  workoutPlan := lookupField df "workout_plan"
  name :=
    if jsTruthy (lookupField pf "name") then (lookupField pf "name").getD Json.null
    else Json.str "Fitness Plan"

/-- Classification of a first/last name field as the claims describe it:
a string yields itself, a missing (`undefined`) or `null` field yields the
empty string, and any other value is outside the claims' scope. -/
def plainNamePart : Option Json → Option String
  | none => some ""
  | some Json.null => some ""
  | some (Json.str s) => some s
  | some _ => none

/-- Request body used by the counterexamples: a `user_id` and a present
but empty `name` field. -/
def cexPayloadEmptyName : Json :=
  Json.obj [("user_id", Json.str "u1"), ("name", Json.str "")]

/-- Upstream result used by witnesses and counterexamples: a double-nested
success carrying a diet plan and a workout plan. -/
def cexUpstreamResult : Json :=
  Json.obj [("success", Json.bool true),
    ("data", Json.obj [("success", Json.bool true),
      ("diet_plan", Json.str "D"), ("workout_plan", Json.str "W")])]

/-! ## Helper lemmas -/

/-- Property access on a non-`null` value never throws. -/
theorem jsGetProp_ne_null {v : Json} (k : String) (h : v ≠ Json.null) :
    jsGetProp v k = Except.ok (jsProp v k) := by
  cases v with
  | null => exact absurd rfl h
  | bool b => rfl
  | num n => rfl
  | str s => rfl
  | arr elems => rfl
  | obj fields => rfl

/-- Contribution of a string/`null`/missing name field to the derived
name: exactly the string the claims describe. -/
theorem jsOrEmpty_of_plainNamePart {v : Option Json} {f : String}
    (h : plainNamePart v = some f) : jsOrEmpty v = f := by
  match v with
  | none =>
      simp [plainNamePart] at h
      simp [jsOrEmpty, jsTruthy, h]
  | some Json.null =>
      simp [plainNamePart] at h
      simp [jsOrEmpty, jsTruthy, h]
  | some (Json.str s) =>
      simp [plainNamePart] at h
      by_cases hs : s = "" <;>
        simp [jsOrEmpty, jsTruthy, jsTemplateString, hs, ← h]
  | some (Json.bool b) => simp [plainNamePart] at h
  | some (Json.num n) => simp [plainNamePart] at h
  | some (Json.arr elems) => simp [plainNamePart] at h
  | some (Json.obj fields) => simp [plainNamePart] at h

/-! ## Claims about the `/vapi/generate-program` route -/

/-- Claim C2 (amended): a 2xx upstream response whose parsed body makes the
double-success guard evaluate to `false` (in particular the body is not
JSON `null`, on which the guard itself throws) is answered with HTTP 500,
the parsed result verbatim as the body, and no persisted plan record. -/
theorem claim_c2_failure_forwarded (payload result : Json) (resp : FetchResponse)
    (parseBackendJson : String → Except String Json)
    (createPlan : PlanRecord → Except String String)
    (hok : resp.isOk = true)
    (hparse : parseBackendJson resp.text = Except.ok result)
    (hcond : evalSuccessCond result = Except.ok false) :
    generateProgram (Except.ok payload) (Except.ok resp) parseBackendJson createPlan =
      ⟨500, result, []⟩ := by
  simp [generateProgram, generateProgramTry, hok, hparse, hcond, Except.bind, bind,
    pure, Except.pure]

/-- Witness for claim C2: the upstream answers 200 with
`\x7b"success": false\x7d`, the handler forwards that body under HTTP 500
and persists nothing. -/
theorem claim_c2_failure_forwarded_witness :
    generateProgram (Except.ok (Json.obj [])) (Except.ok ⟨200, "resp"⟩)
      (fun _ => Except.ok (Json.obj [("success", Json.bool false)]))
      (fun _ => Except.ok "p1") =
      ⟨500, Json.obj [("success", Json.bool false)], []⟩ :=
  claim_c2_failure_forwarded (Json.obj []) (Json.obj [("success", Json.bool false)])
    ⟨200, "resp"⟩ _ _ rfl rfl rfl

/-- Counterexample to claim C2 as stated: when the 2xx upstream body parses
to JSON `null` (which does not satisfy the double-success condition), the
guard's property read throws, so the 500 response carries the catch-all
error payload instead of the parsed result (`null`) verbatim; nothing is
persisted. -/
theorem claim_c2_counterexample :
    generateProgram (Except.ok (Json.obj [])) (Except.ok ⟨200, "null"⟩)
      (fun _ => Except.ok Json.null) (fun _ => Except.ok "p1") =
      ⟨500, Json.obj [("success", Json.bool false),
        ("error", Json.str (typeErrorRead "null" "success"))], []⟩ ∧
    Json.obj [("success", Json.bool false),
      ("error", Json.str (typeErrorRead "null" "success"))] ≠ Json.null :=
  ⟨rfl, by simp⟩

/-- Claim C1 (amended): a request whose body is a JSON object, answered by
the upstream with a 2xx response parsing to a double-nested success,
makes the handler persist exactly the plan record described by
`planToSaveOf` (name defaulting to `"Fitness Plan"` when the request's
`name` field is absent or falsy) and answer HTTP 200 with the parsed
result extended with the new record's id under `planId`. -/
theorem claim_c1_success_persists (pf rf df : List (String × Json))
    (resp : FetchResponse)
    (parseBackendJson : String → Except String Json)
    (createPlan : PlanRecord → Except String String) (planId : String)
    (hok : resp.isOk = true)
    (hparse : parseBackendJson resp.text = Except.ok (Json.obj rf))
    (hs : lookupField rf "success" = some (Json.bool true))
    (hd : lookupField rf "data" = some (Json.obj df))
    (hds : lookupField df "success" = some (Json.bool true))
    (hsave : createPlan (planToSaveOf pf df) = Except.ok planId) :
    generateProgram (Except.ok (Json.obj pf)) (Except.ok resp) parseBackendJson createPlan =
      ⟨200, Json.obj (setField rf "planId" (Json.str planId)), [planToSaveOf pf df]⟩ := by
  have hcond : evalSuccessCond (Json.obj rf) = Except.ok true := by
    simp [evalSuccessCond, jsGetProp, jsProp, hs, hd, jsGetPropVal, hds, jsTruthy,
      Except.bind, bind, pure, Except.pure]
  have hsave' := hsave
  simp only [planToSaveOf] at hsave'
  simp [generateProgram, generateProgramTry, hok, hparse, hcond, jsGetProp, jsProp,
    jsGetPropVal, hd, hsave', planToSaveOf, jsonSpreadSet, Except.bind, bind,
    pure, Except.pure]

/-- Witness for claim C1: a request with `user_id` and a truthy `name`,
a double-nested upstream success, and a successful persist produce the 200
response with the `planId` key and the persisted record. -/
theorem claim_c1_success_persists_witness :
    generateProgram
      (Except.ok (Json.obj [("user_id", Json.str "u1"), ("name", Json.str "My Plan")]))
      (Except.ok ⟨200, "resp"⟩) (fun _ => Except.ok cexUpstreamResult)
      (fun _ => Except.ok "p7") =
      ⟨200,
       Json.obj (setField [("success", Json.bool true),
         ("data", Json.obj [("success", Json.bool true),
           ("diet_plan", Json.str "D"), ("workout_plan", Json.str "W")])]
         "planId" (Json.str "p7")),
       [planToSaveOf [("user_id", Json.str "u1"), ("name", Json.str "My Plan")]
         [("success", Json.bool true), ("diet_plan", Json.str "D"),
          ("workout_plan", Json.str "W")]]⟩ :=
  claim_c1_success_persists
    [("user_id", Json.str "u1"), ("name", Json.str "My Plan")]
    [("success", Json.bool true),
     ("data", Json.obj [("success", Json.bool true),
       ("diet_plan", Json.str "D"), ("workout_plan", Json.str "W")])]
    [("success", Json.bool true), ("diet_plan", Json.str "D"),
     ("workout_plan", Json.str "W")]
    ⟨200, "resp"⟩ _ _ "p7" rfl rfl rfl rfl rfl rfl

/-- Counterexample to claim C1 as stated: a request whose `name` field is
present but the empty string (a falsy value) is persisted with the default
name `"Fitness Plan"`, not with its own `name` field. -/
theorem claim_c1_counterexample :
    (generateProgram (Except.ok cexPayloadEmptyName) (Except.ok ⟨200, "resp"⟩)
      (fun _ => Except.ok cexUpstreamResult) (fun _ => Except.ok "p1")).saved =
      [⟨some (Json.str "u1"), some (Json.str "D"), true, some (Json.str "W"),
        Json.str "Fitness Plan"⟩] ∧
    Json.str "Fitness Plan" ≠ Json.str "" :=
  ⟨rfl, by simp⟩

/-- Claim C6: a non-2xx upstream status makes the handler answer HTTP 500
with `\x7bsuccess: false, error: message\x7d` where the message embeds the
upstream status code and the raw upstream body, and nothing is persisted. -/
theorem claim_c6_upstream_error (payload : Json) (resp : FetchResponse)
    (parseBackendJson : String → Except String Json)
    (createPlan : PlanRecord → Except String String)
    (hbad : resp.isOk = false) :
    generateProgram (Except.ok payload) (Except.ok resp) parseBackendJson createPlan =
      ⟨500, Json.obj [("success", Json.bool false),
        ("error", Json.str ("Python API error: " ++ toString resp.status
          ++ " - " ++ resp.text))], []⟩ ∧
    ∃ pre mid, "Python API error: " ++ toString resp.status ++ " - " ++ resp.text =
      pre ++ toString resp.status ++ mid ++ resp.text := by
  constructor
  · simp [generateProgram, generateProgramTry, hbad, Except.bind, bind, pure,
      Except.pure, throw, throwThe, MonadExceptOf.throw]
  · exact ⟨"Python API error: ", " - ", by simp [String.append_assoc]⟩

/-- Witness for claim C6: an upstream 404 with body `"nope"` yields the 500
error payload embedding both. -/
theorem claim_c6_upstream_error_witness :
    generateProgram (Except.ok Json.null) (Except.ok ⟨404, "nope"⟩)
      (fun _ => Except.ok Json.null) (fun _ => Except.ok "p1") =
      ⟨500, Json.obj [("success", Json.bool false),
        ("error", Json.str ("Python API error: " ++ toString (404 : Nat)
          ++ " - " ++ "nope"))], []⟩ :=
  (claim_c6_upstream_error Json.null ⟨404, "nope"⟩ _ _ rfl).1

/-! ## Claims about the `/clerk-webhook` route -/

/-- Claim C8: with the shared secret absent from the environment the
handler throws the configuration error immediately, for every request and
every oracle — so no header is consulted, no body parsed, no signature
verified and no sync operation invoked. -/
theorem claim_c8_missing_secret (req : ClerkRequest)
    (parseRequestJson : String → Except String Json)
    (verifyWebhook : String → SvixHeaders → Except String WebhookEvent)
    (syncUser updateUser : UserArgs → Except String Unit) :
    clerkWebhook none req parseRequestJson verifyWebhook syncUser updateUser =
      ⟨Except.error "Missing CLERK_WEBHOOK_SECRET environment variable", []⟩ := rfl

/-- Claim C3: a request missing at least one of the three svix headers is
answered with HTTP 400 and no sync operation is invoked. -/
theorem claim_c3_missing_headers (secret : Option String) (req : ClerkRequest)
    (parseRequestJson : String → Except String Json)
    (verifyWebhook : String → SvixHeaders → Except String WebhookEvent)
    (syncUser updateUser : UserArgs → Except String Unit)
    (hsec : jsStrTruthy secret = true)
    (hmiss : req.svixId = none ∨ req.svixSignature = none ∨ req.svixTimestamp = none) :
    clerkWebhook secret req parseRequestJson verifyWebhook syncUser updateUser =
      ⟨Except.ok (400, "No svix headers found"), []⟩ := by
  rcases hmiss with h | h | h <;>
    simp [clerkWebhook, hsec, h, show jsStrTruthy none = false from rfl]

/-- Witness for claim C3: a request without a `svix-id` header. -/
theorem claim_c3_missing_headers_witness :
    clerkWebhook (some "sec") ⟨none, some "sig", some "ts", "body"⟩
      (fun _ => Except.ok Json.null) (fun _ _ => Except.error "bad")
      (fun _ => Except.ok ()) (fun _ => Except.ok ()) =
      ⟨Except.ok (400, "No svix headers found"), []⟩ :=
  claim_c3_missing_headers (some "sec") ⟨none, some "sig", some "ts", "body"⟩
    _ _ _ _ rfl (Or.inl rfl)

/-- Claim C4: with all three svix headers present, a body that parses, and
a failing signature verification, the handler answers HTTP 400 (whatever
the body content) and invokes no sync operation. -/
theorem claim_c4_bad_signature (secret : Option String) (req : ClerkRequest)
    (parseRequestJson : String → Except String Json)
    (verifyWebhook : String → SvixHeaders → Except String WebhookEvent)
    (syncUser updateUser : UserArgs → Except String Unit)
    (payload : Json) (e : String)
    (hsec : jsStrTruthy secret = true)
    (hid : jsStrTruthy req.svixId = true)
    (hsig : jsStrTruthy req.svixSignature = true)
    (hts : jsStrTruthy req.svixTimestamp = true)
    (hparse : parseRequestJson req.rawBody = Except.ok payload)
    (hver : verifyWebhook (Json.stringify payload) (svixHeadersOf req) = Except.error e) :
    clerkWebhook secret req parseRequestJson verifyWebhook syncUser updateUser =
      ⟨Except.ok (400, "Error occurred"), []⟩ := by
  simp [clerkWebhook, hsec, hid, hsig, hts, hparse, hver]

/-- Witness for claim C4: a rejected signature on a well-formed request. -/
theorem claim_c4_bad_signature_witness :
    clerkWebhook (some "sec") ⟨some "id", some "sig", some "ts", "body"⟩
      (fun _ => Except.ok Json.null) (fun _ _ => Except.error "bad signature")
      (fun _ => Except.ok ()) (fun _ => Except.ok ()) =
      ⟨Except.ok (400, "Error occurred"), []⟩ :=
  claim_c4_bad_signature (some "sec") ⟨some "id", some "sig", some "ts", "body"⟩
    _ _ _ _ Json.null "bad signature" rfl rfl rfl rfl rfl rfl

/-- Claim C7: a verified event whose type is neither `user.created` nor
`user.updated` triggers no mutation and is answered with HTTP 200 and the
success message. -/
theorem claim_c7_other_event (secret : Option String) (req : ClerkRequest)
    (parseRequestJson : String → Except String Json)
    (verifyWebhook : String → SvixHeaders → Except String WebhookEvent)
    (syncUser updateUser : UserArgs → Except String Unit)
    (payload : Json) (evt : WebhookEvent)
    (hsec : jsStrTruthy secret = true)
    (hid : jsStrTruthy req.svixId = true)
    (hsig : jsStrTruthy req.svixSignature = true)
    (hts : jsStrTruthy req.svixTimestamp = true)
    (hparse : parseRequestJson req.rawBody = Except.ok payload)
    (hver : verifyWebhook (Json.stringify payload) (svixHeadersOf req) = Except.ok evt)
    (ht1 : evt.type ≠ "user.created") (ht2 : evt.type ≠ "user.updated") :
    clerkWebhook secret req parseRequestJson verifyWebhook syncUser updateUser =
      ⟨Except.ok (200, "Webhooks processed successfully"), []⟩ := by
  simp [clerkWebhook, hsec, hid, hsig, hts, hparse, hver, dispatchEvent, ht1, ht2]

/-- Witness for claim C7: a verified `session.created` event. -/
theorem claim_c7_other_event_witness :
    clerkWebhook (some "sec") ⟨some "id", some "sig", some "ts", "body"⟩
      (fun _ => Except.ok Json.null)
      (fun _ _ => Except.ok ⟨"session.created", Json.null⟩)
      (fun _ => Except.ok ()) (fun _ => Except.ok ()) =
      ⟨Except.ok (200, "Webhooks processed successfully"), []⟩ :=
  claim_c7_other_event (some "sec") ⟨some "id", some "sig", some "ts", "body"⟩
    _ _ _ _ Json.null ⟨"session.created", Json.null⟩
    rfl rfl rfl rfl rfl rfl (by decide) (by decide)

/-- Claim C5: for a verified `user.created` event whose first/last name
fields are strings, `null` or absent and whose email extraction succeeds,
the name handed to the create sync operation is the trimmed concatenation
of first name, a space, and last name, with missing parts as the empty
string. -/
theorem claim_c5_created_name (evt : WebhookEvent)
    (syncUser updateUser : UserArgs → Except String Unit)
    (df : List (String × Json)) (f l : String) (firstAddr : Json) (rest : List Json)
    (htype : evt.type = "user.created")
    (hdata : evt.data = Json.obj df)
    (hf : plainNamePart (lookupField df "first_name") = some f)
    (hl : plainNamePart (lookupField df "last_name") = some l)
    (hmail : lookupField df "email_addresses" = some (Json.arr (firstAddr :: rest)))
    (haddr : firstAddr ≠ Json.null) :
    ∃ args : UserArgs,
      (dispatchEvent evt syncUser updateUser).calls = [SyncCall.create args] ∧
      args.name = jsTrim (f ++ " " ++ l) := by
  have hex : extractUserArgs evt.data = Except.ok
      { email := jsProp firstAddr "email_address",
        name := deriveName (lookupField df "first_name") (lookupField df "last_name"),
        image := lookupField df "image_url", clerkId := lookupField df "id" } := by
    rw [hdata]
    simp [extractUserArgs, jsGetProp, jsProp, hmail, jsIndexZero, jsGetPropVal,
      jsGetProp_ne_null _ haddr, Except.bind, bind, pure, Except.pure]
  refine ⟨UserArgs.mk (jsProp firstAddr "email_address")
      (deriveName (lookupField df "first_name") (lookupField df "last_name"))
      (lookupField df "image_url") (lookupField df "id"), ?_, ?_⟩
  · cases hsync : syncUser
        { email := jsProp firstAddr "email_address",
          name := deriveName (lookupField df "first_name") (lookupField df "last_name"),
          image := lookupField df "image_url", clerkId := lookupField df "id" } <;>
      simp [dispatchEvent, htype, hex, hsync]
  · simp [deriveName, jsOrEmpty_of_plainNamePart hf, jsOrEmpty_of_plainNamePart hl]

/-- Witness for claim C5: a created user named `"Ada "` (trailing space)
with a `null` last name is synced with name `"Ada"`. -/
theorem claim_c5_created_name_witness :
    ∃ args : UserArgs,
      (dispatchEvent ⟨"user.created", Json.obj [("id", Json.str "c1"),
          ("first_name", Json.str "Ada "), ("last_name", Json.null),
          ("image_url", Json.str "img"),
          ("email_addresses", Json.arr [Json.obj [("email_address", Json.str "a@b.c")]])]⟩
        (fun _ => Except.ok ()) (fun _ => Except.ok ())).calls = [SyncCall.create args] ∧
      args.name = jsTrim ("Ada " ++ " " ++ "") :=
  claim_c5_created_name
    ⟨"user.created", Json.obj [("id", Json.str "c1"),
      ("first_name", Json.str "Ada "), ("last_name", Json.null),
      ("image_url", Json.str "img"),
      ("email_addresses", Json.arr [Json.obj [("email_address", Json.str "a@b.c")]])]⟩
    _ _ _ "Ada " "" (Json.obj [("email_address", Json.str "a@b.c")]) []
    rfl rfl rfl rfl rfl (by simp)

/-- Claim C9: a verified `user.created` or `user.updated` event whose
`email_addresses` field is the empty array makes the handler fail with the
uncaught `TypeError` of indexing into the empty list — so it returns
neither 400 nor 500 and invokes no sync operation. -/
theorem claim_c9_empty_email_list (secret : Option String) (req : ClerkRequest)
    (parseRequestJson : String → Except String Json)
    (verifyWebhook : String → SvixHeaders → Except String WebhookEvent)
    (syncUser updateUser : UserArgs → Except String Unit)
    (payload : Json) (evt : WebhookEvent) (df : List (String × Json))
    (hsec : jsStrTruthy secret = true)
    (hid : jsStrTruthy req.svixId = true)
    (hsig : jsStrTruthy req.svixSignature = true)
    (hts : jsStrTruthy req.svixTimestamp = true)
    (hparse : parseRequestJson req.rawBody = Except.ok payload)
    (hver : verifyWebhook (Json.stringify payload) (svixHeadersOf req) = Except.ok evt)
    (htype : evt.type = "user.created" ∨ evt.type = "user.updated")
    (hdata : evt.data = Json.obj df)
    (hmail : lookupField df "email_addresses" = some (Json.arr [])) :
    clerkWebhook secret req parseRequestJson verifyWebhook syncUser updateUser =
      ⟨Except.error (typeErrorRead "undefined" "email_address"), []⟩ := by
  have hex : extractUserArgs evt.data =
      Except.error (typeErrorRead "undefined" "email_address") := by
    rw [hdata]
    simp [extractUserArgs, jsGetProp, jsProp, hmail, jsIndexZero, jsGetPropVal,
      Except.bind, bind, pure, Except.pure]
  rcases htype with h | h <;>
    simp [clerkWebhook, hsec, hid, hsig, hts, hparse, hver, dispatchEvent, h, hex]

/-- Witness for claim C9: a verified `user.created` event with an empty
`email_addresses` array. -/
theorem claim_c9_empty_email_list_witness :
    clerkWebhook (some "sec") ⟨some "id", some "sig", some "ts", "body"⟩
      (fun _ => Except.ok Json.null)
      (fun _ _ => Except.ok ⟨"user.created",
        Json.obj [("id", Json.str "c1"), ("email_addresses", Json.arr [])]⟩)
      (fun _ => Except.ok ()) (fun _ => Except.ok ()) =
      ⟨Except.error (typeErrorRead "undefined" "email_address"), []⟩ :=
  claim_c9_empty_email_list (some "sec") ⟨some "id", some "sig", some "ts", "body"⟩
    _ _ _ _ Json.null
    ⟨"user.created", Json.obj [("id", Json.str "c1"), ("email_addresses", Json.arr [])]⟩
    [("id", Json.str "c1"), ("email_addresses", Json.arr [])]
    rfl rfl rfl rfl rfl rfl (Or.inl rfl) rfl rfl

/-- Claim C10: with the secret configured and all three svix headers
present, (1) a body that fails JSON parsing makes the handler fail with the
uncaught parse exception — giving the same outcome for every verification
oracle, which therefore never runs, and no 400 response and no sync call —
and (2) when the body parses, the outcome depends on the verification
oracle only through its value on the re-serialised parsed body
`JSON.stringify(payload)` and the headers, never on the raw request
bytes. -/
theorem claim_c10_parse_then_verify (secret : Option String) (req : ClerkRequest)
    (parseRequestJson : String → Except String Json)
    (syncUser updateUser : UserArgs → Except String Unit)
    (hsec : jsStrTruthy secret = true)
    (hid : jsStrTruthy req.svixId = true)
    (hsig : jsStrTruthy req.svixSignature = true)
    (hts : jsStrTruthy req.svixTimestamp = true) :
    (∀ (e : String) (verifyWebhook : String → SvixHeaders → Except String WebhookEvent),
      parseRequestJson req.rawBody = Except.error e →
      clerkWebhook secret req parseRequestJson verifyWebhook syncUser updateUser =
        ⟨Except.error e, []⟩) ∧
    (∀ (payload : Json)
      (verifyWebhookA verifyWebhookB : String → SvixHeaders → Except String WebhookEvent),
      parseRequestJson req.rawBody = Except.ok payload →
      verifyWebhookA (Json.stringify payload) (svixHeadersOf req) =
        verifyWebhookB (Json.stringify payload) (svixHeadersOf req) →
      clerkWebhook secret req parseRequestJson verifyWebhookA syncUser updateUser =
        clerkWebhook secret req parseRequestJson verifyWebhookB syncUser updateUser) := by
  constructor
  · intro e verifyWebhook hparse
    simp [clerkWebhook, hsec, hid, hsig, hts, hparse]
  · intro payload verifyWebhookA verifyWebhookB hparse hagree
    simp [clerkWebhook, hsec, hid, hsig, hts, hparse, hagree]

/-- Witness for claim C10: a non-JSON body escapes as the parse exception
whatever the verification oracle does. -/
theorem claim_c10_parse_then_verify_witness :
    clerkWebhook (some "sec") ⟨some "id", some "sig", some "ts", "not json"⟩
      (fun _ => Except.error "SyntaxError: Unexpected token")
      (fun _ _ => Except.ok ⟨"user.created", Json.null⟩)
      (fun _ => Except.ok ()) (fun _ => Except.ok ()) =
      ⟨Except.error "SyntaxError: Unexpected token", []⟩ :=
  (claim_c10_parse_then_verify (some "sec") ⟨some "id", some "sig", some "ts", "not json"⟩
    _ _ _ rfl rfl rfl rfl).1 "SyntaxError: Unexpected token"
    (fun _ _ => Except.ok ⟨"user.created", Json.null⟩) rfl

end FitnessFlex

